import Mathlib

/-!
Shallow embedding of `get_merged_diffs.py`, a one-shot reporting utility that
queries a Gerrit review server for merged changes, enumerates the files of each
change's current revision, fetches per-file diffs, and assembles a JSON report.

The network is modelled as an oracle (`Net`): each endpoint is a function from
the request parameters to the observable outcome of the corresponding Python
call sequence.  A `requests` transport exception (including the `HTTPError`
raised by `raise_for_status`) is the `.error` case of the outer `Except`;
where the code subsequently runs `json.loads` on the prefix-stripped body, the
parse outcome is a further inner `Except` (for the search and file-list tiers)
or an `Option Json` (for the diff tier, where a parse failure is absorbed).
Configuration (`Config`) carries the environment-derived settings together
with the clock values the code samples (`datetime.now()` as a day number for
date arithmetic and as an ISO string for the report timestamp) and the
`strftime` date renderer.
-/

namespace MergeSummary

/-- JSON values, as returned by `json.loads`.  The embedding never parses
text itself: the network oracle supplies the parse outcome, and `Json` values
are carried through opaquely. -/
inductive Json where
  | jnull : Json
  | jbool : Bool → Json
  | jnum : Int → Json
  | jstr : String → Json
  | jarr : List Json → Json
  | jobj : List (String × Json) → Json
  deriving Repr

/-- The `diff` field of a file record: `null` (initial value, kept on error),
a parsed JSON structure, or the raw response text when the body of a 200
response fails to parse as JSON. -/
inductive DiffPayload where
  | jnull : DiffPayload
  | structured : Json → DiffPayload
  | rawText : String → DiffPayload
  deriving Repr

/-- One element of the search response (`changes` in the code): the fields the
loop body reads.  Fields accessed with `change.get(...)` are `Option`s
(`none` models an absent key); fields accessed with `change[...]` are plain
(a missing key there is out of the modelled domain). -/
structure ChangeInfo where
  id : String
  subject : String
  status : Option String
  owner : Option Json
  created : Option String
  updated : Option String
  submitted : Option String
  current_revision : String
  deriving Repr

/-- The `file_data` dict built for one file: path, fetch status string,
diff payload, and the `error_code` key (present only on a non-200 response). -/
structure FileEntry where
  path : String
  status : String
  diff : DiffPayload
  error_code : Option Nat
  deriving Repr

/-- The `change_data` dict built for one change.  `error` models the
`change_data['error']` key set by the change-level exception handler
(`none` when the key is absent). -/
structure ChangeData where
  id : String
  subject : String
  status : Option String
  owner : Json
  created : Option String
  updated : Option String
  submitted : Option String
  revision_id : String
  files : List FileEntry
  error : Option String
  deriving Repr

/-- The report dict.  The code builds three shapes (dry-run, empty-result,
full); `Option` fields model keys that are absent in some shapes
(`none` = key absent). -/
structure Report where
  query : String
  count : Nat
  repository : Option String
  status : Option String
  merged_after : Option String
  timestamp : Option String
  changes : List ChangeData
  dry_run : Option Bool
  deriving Repr

/-- Observable outcome of one `requests.get` on a diff endpoint that returned
a response: the HTTP status code, the full response text, and the outcome of
`json.loads(text[4:])` (`none` models a `JSONDecodeError`). -/
structure DiffResp where
  status_code : Nat
  text : String
  parsedBody : Option Json
  deriving Repr

/-- The network oracle.  For each endpoint, the outer `Except String` is a
`requests` transport exception (message = `str(e)`); the inner layer is what
the code computes from the response body. -/
structure Net where
  /-- Outcome of the search request (`GET /changes/` + `raise_for_status` +
  `json.loads(response.text[4:])`).  Inner `.error` is a `JSONDecodeError`. -/
  search : Except String (Except String (List ChangeInfo))
  /-- Outcome of the file-list request for (change id, revision id).  Inner
  `.ok` gives the keys of the returned file map in order; inner `.error` is a
  `JSONDecodeError` on the prefix-stripped body. -/
  files : String → String → Except String (Except String (List String))
  /-- Outcome of the diff request for (change id, revision id, percent-encoded
  file path). -/
  diff : String → String → String → Except String DiffResp

/-- Environment-derived configuration plus the sampled clock.
`merged_after_env` is `OPENDEV_MERGED_AFTER` (`none` = variable unset);
`today` is the current date as a day number; `fmt` renders a day number the
way `strftime` with a year-month-day pattern does; `now_iso` is
`datetime.now().isoformat()`. -/
structure Config where
  repo_name : String
  status : String
  merged_after_env : Option String
  age : String
  dry_run : Bool
  today : Int
  fmt : Int → String
  now_iso : String

/-- Numeric value of a digit string, as `int()` computes it. -/
def digitsVal (cs : List Char) : Nat :=
  cs.foldl (fun a c => a * 10 + (c.toNat - 48)) 0

/-- Whether a character list is a nonempty run of ASCII digits, matching the
regex group `(\d+)`. -/
def isDigits (cs : List Char) : Bool :=
  !cs.isEmpty && cs.all Char.isDigit

/-- Outcome of `re.match` with the anchored pattern digits-then-unit on the
lowercased age string: the numeric group and the unit character, or `none`
when the string does not match. -/
def ageMatch (age_str : String) : Option (Nat × Char) :=
  let cs := age_str.toList.map Char.toLower
  match cs.getLast? with
  | none => none
  | some u =>
    let ds := cs.dropLast
    if isDigits ds && (u = 'd' || u = 'h' || u = 'm') then
      some (digitsVal ds, u)
    else
      none

/-- The day count computed inside `parse_age_to_date`: a failed match
defaults to 1 day; hours and minutes convert by integer division with a
floor of 1 day. -/
def parse_age_to_days (age_str : String) : Nat :=
  let a := if age_str = "" then "1d" else age_str
  match ageMatch a with
  | none => 1
  | some (number, unit) =>
    if unit = 'd' then number
    else if unit = 'h' then max 1 (number / 24)
    else max 1 (number / (24 * 60))

/-- Embedding of `parse_age_to_date`, at date granularity: the current date
(as a day number) minus the computed day count.  The `strftime` rendering to
a string is applied by the caller via `Config.fmt`. -/
def parse_age_to_date (today : Int) (age_str : String) : Int :=
  today - parse_age_to_days age_str

/-- The resolved `merged_after` value: the environment variable when set and
nonempty (Python truthiness), otherwise the rendered date computed from the
age expression. -/
def resolvedMergedAfter (cfg : Config) : String :=
  match cfg.merged_after_env with
  | some s => if s = "" then cfg.fmt (parse_age_to_date cfg.today cfg.age) else s
  | none => cfg.fmt (parse_age_to_date cfg.today cfg.age)

/-- The search query string the code interpolates. -/
def buildQuery (cfg : Config) (merged_after : String) : String :=
  "status:" ++ cfg.status ++ " repo:" ++ cfg.repo_name ++ " mergedafter:" ++ merged_after

/-- Uppercase hexadecimal digit, as `urllib.parse.quote` emits. -/
def hexDigit (n : Nat) : Char :=
  if n < 10 then Char.ofNat (48 + n) else Char.ofNat (55 + n)

/-- Percent-encoding of one UTF-8 byte with an empty safe set: letters,
digits, underscore, period, hyphen and tilde pass through, everything else
becomes a percent escape. -/
def quoteByte (b : UInt8) : List Char :=
  let n := b.toNat
  if (65 ≤ n ∧ n ≤ 90) ∨ (97 ≤ n ∧ n ≤ 122) ∨ (48 ≤ n ∧ n ≤ 57)
      ∨ n = 95 ∨ n = 46 ∨ n = 45 ∨ n = 126 then
    [Char.ofNat n]
  else
    ['%', hexDigit (n / 16), hexDigit (n % 16)]

/-- The UTF-8 byte sequence of a string, which `quote` percent-encodes. -/
def utf8Bytes (s : String) : List UInt8 :=
  s.toList.flatMap String.utf8EncodeChar

/-- Embedding of `urllib.parse.quote(file_path, safe='')`. -/
def quote (s : String) : String :=
  String.mk (((utf8Bytes s).map quoteByte).flatten)

/-- Embedding of the Python test `path.startswith('/')`: whether the first
character of the path is the reserved slash marker. -/
def startsWithSlash (p : String) : Bool :=
  match p.toList with
  | [] => false
  | c :: _ => c = '/'

/-- The `file_data` dict built from a diff response that arrived (no
transport exception): classified solely by HTTP status; on 200 the parsed
body is stored when it parses, otherwise the raw response text verbatim; on
any other status the diff stays null and the status code is recorded. -/
def mkFileEntry (file_path : String) (resp : DiffResp) : FileEntry :=
  let st := if resp.status_code = 200 then "success" else "error"
  if resp.status_code = 200 then
    match resp.parsedBody with
    | some j => { path := file_path, status := st, diff := DiffPayload.structured j, error_code := none }
    | none => { path := file_path, status := st, diff := DiffPayload.rawText resp.text, error_code := none }
  else
    { path := file_path, status := st, diff := DiffPayload.jnull, error_code := some resp.status_code }

/-- The per-file loop of the change body.  Entries are appended one at a
time; a transport exception on one file's `requests.get` escapes the loop
(it is only caught by the change-level handler), so the accumulated entries
so far are kept and the exception message is returned alongside them. -/
def fetchFilesLoop (net : Net) (cid rid : String) :
    List String → List FileEntry → List FileEntry × Option String
  | [], acc => (acc, none)
  | p :: ps, acc =>
    match net.diff cid rid (quote p) with
    | Except.error e => (acc, some e)
    | Except.ok resp => fetchFilesLoop net cid rid ps (acc ++ [mkFileEntry p resp])

/-- The `change_data` dict as first initialised, before any file fetch. -/
def baseChangeData (c : ChangeInfo) : ChangeData :=
  { id := c.id, subject := c.subject, status := c.status,
    owner := c.owner.getD (Json.jobj []), created := c.created,
    updated := c.updated, submitted := c.submitted,
    revision_id := c.current_revision, files := [], error := none }

/-- The body of the per-change loop.  A transport exception on the file-list
request (or on a diff request inside the file loop) is caught by the
change-level handler, which records the message in the `error` key; a
`JSONDecodeError` on the file-list body is not caught and propagates
(`Except.error`), crashing the whole run. -/
def processChange (net : Net) (c : ChangeInfo) : Except String ChangeData :=
  let base := baseChangeData c
  match net.files c.id c.current_revision with
  | Except.error e => Except.ok { base with error := some e }
  | Except.ok (Except.error jerr) => Except.error jerr
  | Except.ok (Except.ok filesKeys) =>
    let file_paths := filesKeys.filter (fun p => !(startsWithSlash p))
    match fetchFilesLoop net c.id c.current_revision file_paths [] with
    | (entries, some e) => Except.ok { base with files := entries, error := some e }
    | (entries, none) => Except.ok { base with files := entries }

/-- The per-change loop: an uncaught exception from one change body aborts
the whole loop (and the run). -/
def processChanges (net : Net) : List ChangeInfo → Except String (List ChangeData)
  | [] => Except.ok []
  | c :: cs =>
    match processChange net c with
    | Except.error e => Except.error e
    | Except.ok cd =>
      match processChanges net cs with
      | Except.error e => Except.error e
      | Except.ok cds => Except.ok (cd :: cds)

/-- Embedding of `get_merged_diffs`.  `Except.ok none` models `return None`
(search-tier failure), `Except.ok (some r)` a returned report, and
`Except.error e` an uncaught exception escaping the function. -/
def get_merged_diffs (cfg : Config) (net : Net) : Except String (Option Report) :=
  let merged_after := resolvedMergedAfter cfg
  let query := buildQuery cfg merged_after
  if cfg.dry_run then
    Except.ok (some
      { query := query, count := 0, repository := some cfg.repo_name,
        status := some cfg.status, merged_after := some merged_after,
        timestamp := some cfg.now_iso, changes := [], dry_run := some true })
  else
    match net.search with
    | Except.error _ => Except.ok none
    | Except.ok (Except.error _) => Except.ok none
    | Except.ok (Except.ok changes) =>
      if changes.isEmpty then
        Except.ok (some
          { query := query, count := 0, repository := none, status := none,
            merged_after := none, timestamp := none, changes := [], dry_run := none })
      else
        match processChanges net changes with
        | Except.error e => Except.error e
        | Except.ok result_changes =>
          Except.ok (some
            { query := query, count := result_changes.length,
              repository := some cfg.repo_name, status := some cfg.status,
              merged_after := some merged_after, timestamp := some cfg.now_iso,
              changes := result_changes, dry_run := none })

/-- What `main` writes to standard output: the report when `get_merged_diffs`
returns one, nothing when it returns `None` or an exception propagates. -/
def mainOutput (cfg : Config) (net : Net) : Option Report :=
  match get_merged_diffs cfg net with
  | Except.ok (some r) => some r
  | _ => none

/-- Projection used to exhibit outputs: the per-change lists of file paths of
the emitted report, when one is emitted. -/
def emittedFilePathsByChange (cfg : Config) (net : Net) : Option (List (List String)) :=
  match get_merged_diffs cfg net with
  | Except.ok (some r) => some (r.changes.map (fun cd => cd.files.map FileEntry.path))
  | _ => none

/-! Concrete sample data used to evaluate the embedding on closed runs. -/

/-- A sample search-result element. -/
def sampleChange (cid rid : String) : ChangeInfo :=
  { id := cid, subject := "Fix bug", status := some "MERGED",
    owner := some (Json.jobj []), created := some "2026-10-10 01:00:00",
    updated := some "2026-10-11 01:00:00", submitted := some "2026-10-11 02:00:00",
    current_revision := rid }

/-- A sample resolved configuration with an explicit cutoff date set. -/
def sampleConfig : Config :=
  { repo_name := "openstack/barbican", status := "merged",
    merged_after_env := some "2026-10-01", age := "1d", dry_run := false,
    today := 20738, fmt := fun _ => "2026-10-11", now_iso := "2026-10-12T00:00:00" }

/-- The sample configuration with the dry-run flag enabled. -/
def dryConfig : Config :=
  { sampleConfig with dry_run := true }

/-- A 200 diff response whose stripped body parses as JSON. -/
def resp200 : DiffResp :=
  { status_code := 200, text := "prefix then a json object body", parsedBody := some (Json.jobj []) }

/-- A 200 diff response whose stripped body is not valid JSON. -/
def resp200raw : DiffResp :=
  { status_code := 200, text := "plain text body", parsedBody := none }

/-- A 404 diff response. -/
def resp404 : DiffResp :=
  { status_code := 404, text := "Not Found", parsedBody := none }

/-- One change with two eligible files; the first file's diff fetch raises a
transport exception, the second would succeed. -/
def netC1x : Net :=
  { search := Except.ok (Except.ok [sampleChange "X~1" "r1"]),
    files := fun _ _ => Except.ok (Except.ok ["a.py", "b.py"]),
    diff := fun _ _ ep =>
      if ep = "a.py" then Except.error "connection reset" else Except.ok resp200 }

/-- One change with two eligible files; the first file's diff fetch returns
404, the second 200 (all requests arrive). -/
def netC1w : Net :=
  { search := Except.ok (Except.ok [sampleChange "X~1" "r1"]),
    files := fun _ _ => Except.ok (Except.ok ["a.py", "b.py"]),
    diff := fun _ _ ep =>
      if ep = "a.py" then Except.ok resp404 else Except.ok resp200 }

/-- Two changes; the file-list request of the first raises a transport
exception, the second enumerates no files. -/
def netC2w : Net :=
  { search := Except.ok (Except.ok [sampleChange "X~1" "r1", sampleChange "Y~2" "r2"]),
    files := fun cid _ =>
      if cid = "X~1" then Except.error "connection refused" else Except.ok (Except.ok []),
    diff := fun _ _ _ => Except.ok resp200 }

/-- The search request itself raises a transport exception. -/
def netC3w : Net :=
  { search := Except.error "connection timed out",
    files := fun _ _ => Except.ok (Except.ok []),
    diff := fun _ _ _ => Except.ok resp200 }

/-- The search succeeds with one change, but that change's file-list body
fails to parse as JSON. -/
def netC3x : Net :=
  { search := Except.ok (Except.ok [sampleChange "X~1" "r1"]),
    files := fun _ _ => Except.ok (Except.error "Expecting value: line 1 column 1 (char 0)"),
    diff := fun _ _ _ => Except.ok resp200 }

/-- The search returns an empty result set. -/
def netC5x : Net :=
  { search := Except.ok (Except.ok []),
    files := fun _ _ => Except.ok (Except.ok []),
    diff := fun _ _ _ => Except.ok resp200 }

/-- One change whose file-list request raises a transport exception. -/
def netC5w : Net :=
  { search := Except.ok (Except.ok [sampleChange "X~1" "r1"]),
    files := fun _ _ => Except.error "connection refused",
    diff := fun _ _ _ => Except.ok resp200 }

/-- The change record produced for the single change of `netC5w`. -/
def cdC5 : ChangeData :=
  { baseChangeData (sampleChange "X~1" "r1") with error := some "connection refused" }

/-- Diff responses for the C6 witness: 404 for one path, 200 elsewhere. -/
def netC6w : Net :=
  { search := Except.ok (Except.ok []),
    files := fun _ _ => Except.ok (Except.ok ["a.py", "b.py"]),
    diff := fun _ _ ep =>
      if ep = "a.py" then Except.ok resp404 else Except.ok resp200 }

/-- One change enumerating a commit-message pseudo-file and two real files;
the first real file's diff fetch raises a transport exception. -/
def netC8x : Net :=
  { search := Except.ok (Except.ok [sampleChange "X~1" "r1"]),
    files := fun _ _ => Except.ok (Except.ok ["/COMMIT_MSG", "a.py", "b.py"]),
    diff := fun _ _ ep =>
      if ep = "a.py" then Except.error "connection reset" else Except.ok resp200 }

/-- One change enumerating a commit-message pseudo-file and one real file;
every diff request arrives. -/
def netC8w : Net :=
  { search := Except.ok (Except.ok [sampleChange "X~1" "r1"]),
    files := fun _ _ => Except.ok (Except.ok ["/COMMIT_MSG", "a.py"]),
    diff := fun _ _ _ => Except.ok resp200 }

/-- The report emitted for the run of `sampleConfig` against `netC8w`. -/
def rC8 : Report :=
  { query := "status:merged repo:openstack/barbican mergedafter:2026-10-01", count := 1,
    repository := some "openstack/barbican", status := some "merged",
    merged_after := some "2026-10-01", timestamp := some "2026-10-12T00:00:00",
    changes := [{ id := "X~1", subject := "Fix bug", status := some "MERGED",
                  owner := Json.jobj [], created := some "2026-10-10 01:00:00",
                  updated := some "2026-10-11 01:00:00",
                  submitted := some "2026-10-11 02:00:00", revision_id := "r1",
                  files := [{ path := "a.py", status := "success",
                              diff := DiffPayload.structured (Json.jobj []),
                              error_code := none }],
                  error := none }],
    dry_run := none }

/-- A network where everything fails. -/
def netC9a : Net :=
  { search := Except.error "network down",
    files := fun _ _ => Except.error "network down",
    diff := fun _ _ _ => Except.error "network down" }

/-- A network where everything succeeds. -/
def netC9b : Net :=
  { search := Except.ok (Except.ok [sampleChange "X~1" "r1"]),
    files := fun _ _ => Except.ok (Except.ok ["a.py"]),
    diff := fun _ _ _ => Except.ok resp200 }

/-- One change whose file-list response is transport-ok but fails to parse
as JSON. -/
def netC10w : Net :=
  { search := Except.ok (Except.ok [sampleChange "X~1" "r1"]),
    files := fun _ _ => Except.ok (Except.error "Expecting value: line 1 column 1 (char 0)"),
    diff := fun _ _ _ => Except.ok resp200 }

/-! Helper lemmas about the embedding. -/

lemma toLower_of_isDigit (c : Char) (h : c.isDigit = true) : c.toLower = c := by
  simp [Char.isDigit] at h
  obtain ⟨h1, h2⟩ := h
  have h9 : c.toNat ≤ 57 := h2
  unfold Char.toLower
  rw [if_neg]
  omega

lemma map_toLower_of_digits (ds : List Char) (hdig : ∀ c ∈ ds, c.isDigit = true) :
    ds.map Char.toLower = ds := by
  induction ds with
  | nil => rfl
  | cons c cs ih =>
    have hc := toLower_of_isDigit c (hdig c (List.mem_cons_self c cs))
    have hcs := ih (fun x hx => hdig x (List.mem_cons_of_mem c hx))
    simp [hc, hcs]

lemma isDigits_eq_true (ds : List Char) (hne : ds ≠ []) (hdig : ∀ c ∈ ds, c.isDigit = true) :
    isDigits ds = true := by
  simp [isDigits, hne, List.all_eq_true]
  exact fun c hc => hdig c hc

lemma ageMatch_concat (ds : List Char) (u : Char) (hne : ds ≠ [])
    (hdig : ∀ c ∈ ds, c.isDigit = true) (hlow : u.toLower = u)
    (hu : u = 'd' ∨ u = 'h' ∨ u = 'm') :
    ageMatch (String.mk (ds ++ [u])) = some (digitsVal ds, u) := by
  have htl : (String.mk (ds ++ [u])).toList = ds ++ [u] := rfl
  unfold ageMatch
  rw [htl, List.map_append, map_toLower_of_digits ds hdig]
  simp only [List.map_cons, List.map_nil, hlow]
  rw [List.getLast?_concat, List.dropLast_concat]
  have hd := isDigits_eq_true ds hne hdig
  rcases hu with h | h | h <;> subst h <;> simp [hd]

lemma mk_concat_ne_empty (ds : List Char) (u : Char) :
    String.mk (ds ++ [u]) ≠ "" := by
  intro h
  have := congrArg String.data h
  simp at this

lemma parse_age_to_days_concat (ds : List Char) (u : Char) (hne : ds ≠ [])
    (hdig : ∀ c ∈ ds, c.isDigit = true) (hlow : u.toLower = u)
    (hu : u = 'd' ∨ u = 'h' ∨ u = 'm') :
    parse_age_to_days (String.mk (ds ++ [u])) =
      (if u = 'd' then digitsVal ds
       else if u = 'h' then max 1 (digitsVal ds / 24)
       else max 1 (digitsVal ds / (24 * 60))) := by
  unfold parse_age_to_days
  rw [if_neg (mk_concat_ne_empty ds u)]
  simp only [ageMatch_concat ds u hne hdig hlow hu]

lemma mkFileEntry_path (p : String) (r : DiffResp) : (mkFileEntry p r).path = p := by
  unfold mkFileEntry
  by_cases h : r.status_code = 200
  · cases hb : r.parsedBody <;> simp [h, hb]
  · simp [h]

lemma fetchFilesLoop_all_ok (net : Net) (cid rid : String) :
    ∀ (ps : List String) (acc : List FileEntry),
      (∀ p ∈ ps, ∃ resp, net.diff cid rid (quote p) = Except.ok resp) →
      (fetchFilesLoop net cid rid ps acc).2 = none ∧
      (fetchFilesLoop net cid rid ps acc).1.map FileEntry.path = acc.map FileEntry.path ++ ps
  | [], acc, _ => by simp [fetchFilesLoop]
  | p :: ps, acc, h => by
    obtain ⟨resp, hresp⟩ := h p (List.mem_cons_self p ps)
    have ih := fetchFilesLoop_all_ok net cid rid ps (acc ++ [mkFileEntry p resp])
      (fun q hq => h q (List.mem_cons_of_mem p hq))
    rw [fetchFilesLoop, hresp]
    refine ⟨ih.1, ?_⟩
    rw [ih.2]
    simp [mkFileEntry_path]

lemma fetchFilesLoop_mem (net : Net) (cid rid : String) :
    ∀ (ps : List String) (acc : List FileEntry) (e : FileEntry),
      e ∈ (fetchFilesLoop net cid rid ps acc).1 → e ∈ acc ∨ e.path ∈ ps
  | [], acc, e, he => Or.inl (by simpa [fetchFilesLoop] using he)
  | p :: ps, acc, e, he => by
    rw [fetchFilesLoop] at he
    cases hd : net.diff cid rid (quote p) with
    | error msg =>
      rw [hd] at he
      exact Or.inl he
    | ok resp =>
      rw [hd] at he
      rcases fetchFilesLoop_mem net cid rid ps (acc ++ [mkFileEntry p resp]) e he with hin | hin
      · rcases List.mem_append.mp hin with hin2 | hin2
        · exact Or.inl hin2
        · have : e = mkFileEntry p resp := by simpa using hin2
          subst this
          exact Or.inr (by simp [mkFileEntry_path])
      · exact Or.inr (List.mem_cons_of_mem p hin)

lemma processChange_files_error (net : Net) (c : ChangeInfo) (msg : String)
    (h : net.files c.id c.current_revision = Except.error msg) :
    processChange net c = Except.ok { baseChangeData c with error := some msg } := by
  unfold processChange
  rw [h]

lemma processChange_files_jsonError (net : Net) (c : ChangeInfo) (jerr : String)
    (h : net.files c.id c.current_revision = Except.ok (Except.error jerr)) :
    processChange net c = Except.error jerr := by
  unfold processChange
  rw [h]

lemma processChange_all_diff_ok (net : Net) (c : ChangeInfo) (filesKeys : List String)
    (hfiles : net.files c.id c.current_revision = Except.ok (Except.ok filesKeys))
    (hdiff : ∀ p ∈ filesKeys.filter (fun q => !(startsWithSlash q)),
      ∃ resp, net.diff c.id c.current_revision (quote p) = Except.ok resp) :
    ∃ cd, processChange net c = Except.ok cd ∧
      cd.files.map FileEntry.path = filesKeys.filter (fun q => !(startsWithSlash q)) ∧
      cd.error = none := by
  have h := fetchFilesLoop_all_ok net c.id c.current_revision
    (filesKeys.filter (fun q => !(startsWithSlash q))) [] hdiff
  obtain ⟨h2, h1⟩ := h
  rcases hE : fetchFilesLoop net c.id c.current_revision
      (filesKeys.filter (fun q => !(startsWithSlash q))) [] with ⟨entries, exn⟩
  rw [hE] at h2 h1
  simp only at h2 h1
  subst h2
  have hpc : processChange net c = Except.ok { baseChangeData c with files := entries } := by
    unfold processChange
    rw [hfiles]
    simp only [hE]
  exact ⟨{ baseChangeData c with files := entries }, hpc, by simpa using h1, rfl⟩

lemma processChange_no_slash (net : Net) (c : ChangeInfo) (cd : ChangeData)
    (h : processChange net c = Except.ok cd) :
    ∀ fe ∈ cd.files, startsWithSlash fe.path = false := by
  intro fe hfe
  unfold processChange at h
  cases hf : net.files c.id c.current_revision with
  | error msg =>
    rw [hf] at h
    cases h
    simp [baseChangeData] at hfe
  | ok inner =>
    cases inner with
    | error jerr =>
      rw [hf] at h
      cases h
    | ok keys =>
      rw [hf] at h
      simp only at h
      rcases hE : fetchFilesLoop net c.id c.current_revision
          (keys.filter (fun p => !(startsWithSlash p))) [] with ⟨entries, exn⟩
      rw [hE] at h
      have hmem : fe ∈ entries → fe.path ∈ keys.filter (fun p => !(startsWithSlash p)) := by
        intro hin
        have hin2 : fe ∈ (fetchFilesLoop net c.id c.current_revision
            (keys.filter (fun p => !(startsWithSlash p))) []).1 := by
          rw [hE]
          exact hin
        rcases fetchFilesLoop_mem net c.id c.current_revision _ [] fe hin2 with h0 | h0
        · simp at h0
        · exact h0
      have hslash : fe.path ∈ keys.filter (fun p => !(startsWithSlash p)) →
          startsWithSlash fe.path = false := by
        intro hp
        have := (List.mem_filter.mp hp).2
        simpa using this
      cases exn with
      | some e =>
        cases h
        exact hslash (hmem (by simpa using hfe))
      | none =>
        cases h
        exact hslash (hmem (by simpa using hfe))

lemma processChanges_all_ok (net : Net) :
    ∀ cs : List ChangeInfo, (∀ c ∈ cs, ∃ cd, processChange net c = Except.ok cd) →
    ∃ cds, processChanges net cs = Except.ok cds ∧ cds.length = cs.length ∧
      ∀ i (h1 : i < cs.length) (h2 : i < cds.length),
        processChange net (cs.get ⟨i, h1⟩) = Except.ok (cds.get ⟨i, h2⟩)
  | [], _ => ⟨[], rfl, rfl, fun i h1 => absurd h1 (Nat.not_lt_zero i)⟩
  | c :: cs, h => by
    obtain ⟨cd, hcd⟩ := h c (List.mem_cons_self c cs)
    obtain ⟨cds, hcds, hlen, hpt⟩ :=
      processChanges_all_ok net cs (fun x hx => h x (List.mem_cons_of_mem c hx))
    refine ⟨cd :: cds, ?_, by simp [hlen], ?_⟩
    · rw [processChanges, hcd, hcds]
    · intro i h1 h2
      cases i with
      | zero => simpa using hcd
      | succ n => exact hpt n (Nat.lt_of_succ_lt_succ h1) (Nat.lt_of_succ_lt_succ h2)

lemma processChanges_mem (net : Net) :
    ∀ (cs : List ChangeInfo) (cds : List ChangeData),
      processChanges net cs = Except.ok cds →
      ∀ cd ∈ cds, ∃ c ∈ cs, processChange net c = Except.ok cd
  | [], cds, h => by
    cases h
    intro cd hcd
    simp at hcd
  | c :: cs, cds, h => by
    rw [processChanges] at h
    cases hc : processChange net c with
    | error e =>
      rw [hc] at h
      cases h
    | ok cd0 =>
      rw [hc] at h
      cases hrest : processChanges net cs with
      | error e =>
        rw [hrest] at h
        cases h
      | ok cds0 =>
        rw [hrest] at h
        cases h
        intro cd hcd
        rcases List.mem_cons.mp hcd with h0 | h0
        · subst h0
          exact ⟨c, List.mem_cons_self c cs, hc⟩
        · obtain ⟨c2, hc2, hc2p⟩ := processChanges_mem net cs cds0 hrest cd h0
          exact ⟨c2, List.mem_cons_of_mem c hc2, hc2p⟩

lemma processChanges_error_at (net : Net) :
    ∀ (cs : List ChangeInfo) (i : Nat) (hi : i < cs.length) (msg : String),
      processChange net (cs.get ⟨i, hi⟩) = Except.error msg →
      (∀ j (hj : j < cs.length), j < i → ∃ cd, processChange net (cs.get ⟨j, hj⟩) = Except.ok cd) →
      processChanges net cs = Except.error msg
  | [], i, hi, msg, _, _ => absurd hi (by simp)
  | c :: cs, 0, hi, msg, herr, _ => by
    rw [processChanges]
    rw [show (c :: cs).get ⟨0, hi⟩ = c from rfl] at herr
    rw [herr]
  | c :: cs, Nat.succ n, hi, msg, herr, hok => by
    obtain ⟨cd, hcd⟩ := hok 0 (by omega) (by omega)
    rw [show (c :: cs).get ⟨0, by omega⟩ = c from rfl] at hcd
    have hn : n < cs.length := Nat.lt_of_succ_lt_succ hi
    have ih := processChanges_error_at net cs n hn msg
      (by rw [show cs.get ⟨n, hn⟩ = (c :: cs).get ⟨n + 1, hi⟩ from rfl]; exact herr)
      (fun j hj hji => by
        have := hok (j + 1) (by omega) (by omega)
        rwa [show (c :: cs).get ⟨j + 1, by omega⟩ = cs.get ⟨j, hj⟩ from rfl] at this)
    rw [processChanges, hcd, ih]

lemma get_merged_diffs_eq_full (cfg : Config) (net : Net) (cs : List ChangeInfo)
    (cds : List ChangeData) (hdry : cfg.dry_run = false)
    (hsearch : net.search = Except.ok (Except.ok cs)) (hne : cs ≠ [])
    (hproc : processChanges net cs = Except.ok cds) :
    get_merged_diffs cfg net = Except.ok (some
      { query := buildQuery cfg (resolvedMergedAfter cfg), count := cds.length,
        repository := some cfg.repo_name, status := some cfg.status,
        merged_after := some (resolvedMergedAfter cfg), timestamp := some cfg.now_iso,
        changes := cds, dry_run := none }) := by
  unfold get_merged_diffs
  rw [hdry, hsearch]
  simp only [Bool.false_eq_true, if_false]
  rw [List.isEmpty_eq_false.mpr hne]
  simp only [Bool.false_eq_true, if_false]
  rw [hproc]

lemma report_changes_sources (cfg : Config) (net : Net) (r : Report)
    (hrun : get_merged_diffs cfg net = Except.ok (some r)) :
    r.changes = [] ∨
    ∃ cs, net.search = Except.ok (Except.ok cs) ∧
      processChanges net cs = Except.ok r.changes := by
  unfold get_merged_diffs at hrun
  by_cases hd : cfg.dry_run = true
  · rw [hd] at hrun
    simp only [if_true] at hrun
    cases hrun
    left
    rfl
  · rw [if_neg hd] at hrun
    cases hs : net.search with
    | error e =>
      rw [hs] at hrun
      cases hrun
    | ok inner =>
      cases inner with
      | error e =>
        rw [hs] at hrun
        cases hrun
      | ok cs =>
        rw [hs] at hrun
        simp only at hrun
        by_cases hemp : cs.isEmpty = true
        · rw [hemp] at hrun
          simp only [if_true] at hrun
          cases hrun
          left
          rfl
        · rw [Bool.not_eq_true] at hemp
          rw [hemp] at hrun
          simp only [Bool.false_eq_true, if_false] at hrun
          cases hp : processChanges net cs with
          | error e =>
            rw [hp] at hrun
            cases hrun
          | ok cds =>
            rw [hp] at hrun
            cases hrun
            right
            exact ⟨cs, rfl, by simpa using hp⟩

/-! Claim theorems. -/

/-- Claim C1, counterexample: with one change enumerating the eligible files
`a.py` and `b.py`, a transport exception on the diff fetch of `a.py` leaves
the change's file collection empty in the emitted report: neither `a.py` nor
its sibling `b.py` appears as a FileEntry, so per-file diff fetches are not
independent under transport failure and enumerated files can be missing from
the output. -/
theorem C1_counterexample :
    netC1x.files "X~1" "r1" = Except.ok (Except.ok ["a.py", "b.py"]) ∧
    emittedFilePathsByChange sampleConfig netC1x = some [[]] :=
  ⟨rfl, by decide⟩

/-- Claim C1 (amended): per-file diff fetches are independent with respect to
HTTP error statuses only.  When every diff request for a change's eligible
files completes without a transport exception, every enumerated eligible
file appears as a FileEntry in enumeration order (whatever the HTTP status
of its own fetch) and the change carries no error field; a transport
exception during one file's fetch, however, aborts the remaining sibling
fetches of that change. -/
theorem C1_spec (net : Net) (c : ChangeInfo) (filesKeys : List String)
    (hfiles : net.files c.id c.current_revision = Except.ok (Except.ok filesKeys))
    (hdiff : ∀ p ∈ filesKeys.filter (fun q => !(startsWithSlash q)),
      ∃ resp, net.diff c.id c.current_revision (quote p) = Except.ok resp) :
    ∃ cd, processChange net c = Except.ok cd ∧
      cd.files.map FileEntry.path = filesKeys.filter (fun q => !(startsWithSlash q)) ∧
      cd.error = none :=
  processChange_all_diff_ok net c filesKeys hfiles hdiff

/-- Claim C1, witness: a change with files `a.py` (fetch answers 404) and
`b.py` (fetch answers 200); both appear as FileEntry records. -/
theorem C1_witness :
    ∃ cd, processChange netC1w (sampleChange "X~1" "r1") = Except.ok cd ∧
      cd.files.map FileEntry.path =
        (["a.py", "b.py"].filter (fun q => !(startsWithSlash q))) ∧
      cd.error = none :=
  C1_spec netC1w (sampleChange "X~1" "r1") ["a.py", "b.py"] rfl (by
    intro p hp
    have hp2 := (List.mem_filter.mp hp).1
    simp at hp2
    rcases hp2 with h | h <;> subst h
    · exact ⟨resp404, rfl⟩
    · exact ⟨resp200, rfl⟩)

/-- Claim C2: a transport failure on one change's file-list request does not
abort the run; that change's record carries the exception string in its
error field with an empty file collection, and every change of the search
result (in particular every subsequent one) is still processed normally and
appears in the report pointwise. -/
theorem C2_spec (cfg : Config) (net : Net) (cs : List ChangeInfo) (i : Nat) (msg : String)
    (hdry : cfg.dry_run = false)
    (hsearch : net.search = Except.ok (Except.ok cs))
    (hi : i < cs.length)
    (hfail : net.files (cs.get ⟨i, hi⟩).id (cs.get ⟨i, hi⟩).current_revision =
      Except.error msg)
    (hall : ∀ c ∈ cs, ∃ cd, processChange net c = Except.ok cd) :
    ∃ r, get_merged_diffs cfg net = Except.ok (some r) ∧
      r.changes.length = cs.length ∧
      (∀ hi2 : i < r.changes.length,
        (r.changes.get ⟨i, hi2⟩).error = some msg ∧
        (r.changes.get ⟨i, hi2⟩).files = []) ∧
      (∀ j (hj : j < cs.length) (hj2 : j < r.changes.length),
        processChange net (cs.get ⟨j, hj⟩) = Except.ok (r.changes.get ⟨j, hj2⟩)) := by
  obtain ⟨cds, hproc, hlen, hpt⟩ := processChanges_all_ok net cs hall
  have hne : cs ≠ [] := List.ne_nil_of_length_pos (Nat.lt_of_le_of_lt (Nat.zero_le i) hi)
  refine ⟨_, get_merged_diffs_eq_full cfg net cs cds hdry hsearch hne hproc, by simpa using hlen, ?_, ?_⟩
  · intro hi2
    have hi3 : i < cds.length := by simpa using hi2
    have h1 := hpt i hi hi3
    have h2 := processChange_files_error net (cs.get ⟨i, hi⟩) msg hfail
    rw [h1] at h2
    have h3 := Except.ok.inj h2
    constructor
    · show (cds.get ⟨i, hi3⟩).error = some msg
      rw [h3]
    · show (cds.get ⟨i, hi3⟩).files = []
      rw [h3]
      rfl
  · intro j hj hj2
    exact hpt j hj (by simpa using hj2)

/-- Claim C2, witness: two changes, the first change's file-list request
fails with connection refused; the report still has both changes, the first
with the error field and no files, and both processed pointwise. -/
theorem C2_witness :
    ∃ r, get_merged_diffs sampleConfig netC2w = Except.ok (some r) ∧
      r.changes.length = [sampleChange "X~1" "r1", sampleChange "Y~2" "r2"].length ∧
      (∀ hi2 : 0 < r.changes.length,
        (r.changes.get ⟨0, hi2⟩).error = some "connection refused" ∧
        (r.changes.get ⟨0, hi2⟩).files = []) ∧
      (∀ j (hj : j < [sampleChange "X~1" "r1", sampleChange "Y~2" "r2"].length)
        (hj2 : j < r.changes.length),
        processChange netC2w ([sampleChange "X~1" "r1", sampleChange "Y~2" "r2"].get ⟨j, hj⟩) =
          Except.ok (r.changes.get ⟨j, hj2⟩)) :=
  C2_spec sampleConfig netC2w [sampleChange "X~1" "r1", sampleChange "Y~2" "r2"] 0
    "connection refused" rfl rfl (by decide) rfl (by
      intro c hc
      simp at hc
      rcases hc with h | h <;> subst h
      · exact ⟨{ baseChangeData (sampleChange "X~1" "r1") with error := some "connection refused" }, rfl⟩
      · exact ⟨baseChangeData (sampleChange "Y~2" "r2"), rfl⟩)

/-- Claim C3 (amended): a transport failure or a JSON-parse failure on the
top-level search request aborts the run with no report written to standard
output; but this is not the only fatal failure mode (see the
counterexample: a JSON-parse failure on a file-enumeration body is also
fatal). -/
theorem C3_spec (cfg : Config) (net : Net)
    (hdry : cfg.dry_run = false)
    (h : (∃ e, net.search = Except.error e) ∨
         (∃ e, net.search = Except.ok (Except.error e))) :
    get_merged_diffs cfg net = Except.ok none ∧ mainOutput cfg net = none := by
  have hg : get_merged_diffs cfg net = Except.ok none := by
    unfold get_merged_diffs
    rw [hdry]
    simp only [Bool.false_eq_true, if_false]
    rcases h with ⟨e, he⟩ | ⟨e, he⟩ <;> rw [he]
  refine ⟨hg, ?_⟩
  unfold mainOutput
  rw [hg]

/-- Claim C3, counterexample: the search tier succeeds, yet the run is
fatal — with one change whose file-list body fails to parse as JSON, the
JSON-decode exception is uncaught, `get_merged_diffs` aborts with it and
nothing is written to standard output.  Search-tier failure is therefore not
the only fatal failure mode. -/
theorem C3_counterexample :
    netC3x.search = Except.ok (Except.ok [sampleChange "X~1" "r1"]) ∧
    get_merged_diffs sampleConfig netC3x =
      Except.error "Expecting value: line 1 column 1 (char 0)" ∧
    mainOutput sampleConfig netC3x = none :=
  ⟨rfl, rfl, rfl⟩

/-- Claim C3, witness: a search transport failure yields a `None` return and
no output. -/
theorem C3_witness :
    get_merged_diffs sampleConfig netC3w = Except.ok none ∧
    mainOutput sampleConfig netC3w = none :=
  C3_spec sampleConfig netC3w rfl (Or.inl ⟨"connection timed out", rfl⟩)

/-- Claim C4: an age expression of digits followed by `d` resolves to now
minus that many days; with `h` to now minus `max 1 (n / 24)` days; with `m`
to now minus `max 1 (n / (24 * 60))` days; any expression the regex does not
match resolves exactly like the default `1d`, which is now minus one day —
all total, with no error raised. -/
theorem C4_spec (t : Int) (ds : List Char)
    (hne : ds ≠ []) (hdig : ∀ c ∈ ds, c.isDigit = true) :
    parse_age_to_date t (String.mk (ds ++ ['d'])) = t - digitsVal ds ∧
    parse_age_to_date t (String.mk (ds ++ ['h'])) = t - (max 1 (digitsVal ds / 24) : Nat) ∧
    parse_age_to_date t (String.mk (ds ++ ['m'])) = t - (max 1 (digitsVal ds / (24 * 60)) : Nat) ∧
    (∀ s : String, ageMatch s = none → parse_age_to_date t s = parse_age_to_date t "1d") ∧
    parse_age_to_date t "1d" = t - 1 := by
  refine ⟨?_, ?_, ?_, ?_, ?_⟩
  · unfold parse_age_to_date
    rw [parse_age_to_days_concat ds 'd' hne hdig (by decide) (Or.inl rfl)]
    simp
  · unfold parse_age_to_date
    rw [parse_age_to_days_concat ds 'h' hne hdig (by decide) (Or.inr (Or.inl rfl))]
    simp
  · unfold parse_age_to_date
    rw [parse_age_to_days_concat ds 'm' hne hdig (by decide) (Or.inr (Or.inr rfl))]
    simp
  · intro s hs
    by_cases h : s = ""
    · subst h
      rfl
    · have h1 : parse_age_to_date t "1d" = t - 1 := rfl
      rw [h1]
      unfold parse_age_to_date parse_age_to_days
      rw [if_neg h]
      simp only [hs]
      norm_num
  · rfl

/-- Claim C4, witness: the digit string `49` with each unit, at a concrete
current date. -/
theorem C4_witness :
    ((['4', '9'] : List Char) ≠ [] ∧ ∀ c ∈ (['4', '9'] : List Char), c.isDigit = true) ∧
    (parse_age_to_date 100 (String.mk (['4', '9'] ++ ['d'])) = 100 - digitsVal ['4', '9'] ∧
     parse_age_to_date 100 (String.mk (['4', '9'] ++ ['h'])) =
       100 - (max 1 (digitsVal ['4', '9'] / 24) : Nat) ∧
     parse_age_to_date 100 (String.mk (['4', '9'] ++ ['m'])) =
       100 - (max 1 (digitsVal ['4', '9'] / (24 * 60)) : Nat) ∧
     (∀ s : String, ageMatch s = none → parse_age_to_date 100 s = parse_age_to_date 100 "1d") ∧
     parse_age_to_date 100 "1d" = 100 - 1) :=
  ⟨⟨by decide, by decide⟩, C4_spec 100 ['4', '9'] (by decide) (by decide)⟩

/-- Claim C5, counterexample: for a search that returns zero changes the
emitted report contains only the query, a zero count and the empty change
collection — the repository, status, recency bound and timestamp keys are
absent, contradicting the claim that every report contains them. -/
theorem C5_counterexample :
    get_merged_diffs sampleConfig netC5x = Except.ok (some
      { query := "status:merged repo:openstack/barbican mergedafter:2026-10-01", count := 0,
        repository := none, status := none, merged_after := none, timestamp := none,
        changes := [], dry_run := none }) :=
  rfl

/-- Claim C5 (amended): the dry-run report and the report of a nonempty
result set contain the query, count, repository, status, resolved recency
bound, generation timestamp and ordered change collection (with count equal
to the collection's length); the report for a search that returned zero
changes contains only the query, a zero count and an empty change
collection. -/
theorem C5_spec (cfg : Config) (net : Net) :
    (cfg.dry_run = true → get_merged_diffs cfg net = Except.ok (some
      { query := buildQuery cfg (resolvedMergedAfter cfg), count := 0,
        repository := some cfg.repo_name, status := some cfg.status,
        merged_after := some (resolvedMergedAfter cfg), timestamp := some cfg.now_iso,
        changes := [], dry_run := some true })) ∧
    (∀ (cs : List ChangeInfo) (cds : List ChangeData),
      cfg.dry_run = false → net.search = Except.ok (Except.ok cs) → cs ≠ [] →
      processChanges net cs = Except.ok cds →
      get_merged_diffs cfg net = Except.ok (some
        { query := buildQuery cfg (resolvedMergedAfter cfg), count := cds.length,
          repository := some cfg.repo_name, status := some cfg.status,
          merged_after := some (resolvedMergedAfter cfg), timestamp := some cfg.now_iso,
          changes := cds, dry_run := none })) ∧
    (cfg.dry_run = false → net.search = Except.ok (Except.ok []) →
      get_merged_diffs cfg net = Except.ok (some
        { query := buildQuery cfg (resolvedMergedAfter cfg), count := 0,
          repository := none, status := none, merged_after := none, timestamp := none,
          changes := [], dry_run := none })) := by
  refine ⟨?_, ?_, ?_⟩
  · intro h
    unfold get_merged_diffs
    rw [h]
    simp only [if_true]
  · intro cs cds hdry hsearch hne hproc
    exact get_merged_diffs_eq_full cfg net cs cds hdry hsearch hne hproc
  · intro hdry hsearch
    unfold get_merged_diffs
    rw [hdry, hsearch]
    simp only [Bool.false_eq_true, if_false]
    rfl

/-- Claim C5, witness: the three report shapes evaluated on concrete runs
(dry run, one change whose file listing fails by transport, and an empty
search result). -/
theorem C5_witness :
    (get_merged_diffs dryConfig netC5x = Except.ok (some
      { query := buildQuery dryConfig (resolvedMergedAfter dryConfig), count := 0,
        repository := some dryConfig.repo_name, status := some dryConfig.status,
        merged_after := some (resolvedMergedAfter dryConfig),
        timestamp := some dryConfig.now_iso, changes := [], dry_run := some true })) ∧
    (get_merged_diffs sampleConfig netC5w = Except.ok (some
      { query := buildQuery sampleConfig (resolvedMergedAfter sampleConfig),
        count := [cdC5].length, repository := some sampleConfig.repo_name,
        status := some sampleConfig.status,
        merged_after := some (resolvedMergedAfter sampleConfig),
        timestamp := some sampleConfig.now_iso, changes := [cdC5], dry_run := none })) ∧
    (get_merged_diffs sampleConfig netC5x = Except.ok (some
      { query := buildQuery sampleConfig (resolvedMergedAfter sampleConfig), count := 0,
        repository := none, status := none, merged_after := none, timestamp := none,
        changes := [], dry_run := none })) :=
  ⟨(C5_spec dryConfig netC5x).1 rfl,
   (C5_spec sampleConfig netC5w).2.1 [sampleChange "X~1" "r1"] [cdC5] rfl rfl
     (List.cons_ne_nil _ _) rfl,
   (C5_spec sampleConfig netC5x).2.2 rfl rfl⟩

/-- Claim C6: a diff response that arrives is classified solely by its HTTP
status: a 200 response yields a FileEntry with status success and a diff
payload (the parsed body, or the raw text); any other status yields status
error with the HTTP status code recorded as error code and a null diff; and
in either case the per-file loop continues with the sibling files. -/
theorem C6_spec (net : Net) (cid rid : String) (p : String) (resp : DiffResp)
    (ps : List String) (acc : List FileEntry)
    (hresp : net.diff cid rid (quote p) = Except.ok resp) :
    (resp.status_code = 200 → mkFileEntry p resp =
      { path := p, status := "success",
        diff := match resp.parsedBody with
                | some j => DiffPayload.structured j
                | none => DiffPayload.rawText resp.text,
        error_code := none }) ∧
    (resp.status_code ≠ 200 → mkFileEntry p resp =
      { path := p, status := "error", diff := DiffPayload.jnull,
        error_code := some resp.status_code }) ∧
    fetchFilesLoop net cid rid (p :: ps) acc =
      fetchFilesLoop net cid rid ps (acc ++ [mkFileEntry p resp]) := by
  refine ⟨?_, ?_, ?_⟩
  · intro h
    cases hb : resp.parsedBody <;> simp [mkFileEntry, h, hb]
  · intro h
    simp [mkFileEntry, h]
  · rw [fetchFilesLoop, hresp]

/-- Claim C6, witness: a 404 diff response for `a.py` with the sibling
`b.py` still pending. -/
theorem C6_witness :
    (resp404.status_code = 200 → mkFileEntry "a.py" resp404 =
      { path := "a.py", status := "success",
        diff := match resp404.parsedBody with
                | some j => DiffPayload.structured j
                | none => DiffPayload.rawText resp404.text,
        error_code := none }) ∧
    (resp404.status_code ≠ 200 → mkFileEntry "a.py" resp404 =
      { path := "a.py", status := "error", diff := DiffPayload.jnull,
        error_code := some resp404.status_code }) ∧
    fetchFilesLoop netC6w "X~1" "r1" ["a.py", "b.py"] [] =
      fetchFilesLoop netC6w "X~1" "r1" ["b.py"] ([] ++ [mkFileEntry "a.py" resp404]) :=
  C6_spec netC6w "X~1" "r1" "a.py" resp404 ["b.py"] [] rfl

/-- Claim C7: for a 200 diff response, a body that parses as JSON is stored
as the parsed structure, and a body that does not parse is stored as the
exact original response text verbatim, with the entry status remaining
success in both cases (a parse failure is not an error). -/
theorem C7_spec (p : String) (resp : DiffResp) (h200 : resp.status_code = 200) :
    (∀ j, resp.parsedBody = some j → mkFileEntry p resp =
      { path := p, status := "success", diff := DiffPayload.structured j,
        error_code := none }) ∧
    (resp.parsedBody = none → mkFileEntry p resp =
      { path := p, status := "success", diff := DiffPayload.rawText resp.text,
        error_code := none }) ∧
    (mkFileEntry p resp).status = "success" := by
  refine ⟨?_, ?_, ?_⟩
  · intro j hj
    simp [mkFileEntry, h200, hj]
  · intro hn
    simp [mkFileEntry, h200, hn]
  · cases hb : resp.parsedBody <;> simp [mkFileEntry, h200, hb]

/-- Claim C7, witness: a 200 response with a JSON body and a 200 response
with a non-JSON body. -/
theorem C7_witness :
    ((∀ j, resp200.parsedBody = some j → mkFileEntry "a.py" resp200 =
      { path := "a.py", status := "success", diff := DiffPayload.structured j,
        error_code := none }) ∧
     (resp200.parsedBody = none → mkFileEntry "a.py" resp200 =
      { path := "a.py", status := "success", diff := DiffPayload.rawText resp200.text,
        error_code := none }) ∧
     (mkFileEntry "a.py" resp200).status = "success") ∧
    ((∀ j, resp200raw.parsedBody = some j → mkFileEntry "b.py" resp200raw =
      { path := "b.py", status := "success", diff := DiffPayload.structured j,
        error_code := none }) ∧
     (resp200raw.parsedBody = none → mkFileEntry "b.py" resp200raw =
      { path := "b.py", status := "success", diff := DiffPayload.rawText resp200raw.text,
        error_code := none }) ∧
     (mkFileEntry "b.py" resp200raw).status = "success") :=
  ⟨C7_spec "a.py" resp200 rfl, C7_spec "b.py" resp200raw rfl⟩

/-- Claim C8, counterexample: with enumerated paths `/COMMIT_MSG`, `a.py`
and `b.py`, the slash-prefixed pseudo-file is excluded as claimed, but a
transport exception on the diff fetch of `a.py` leaves the change's file
collection empty in the emitted report, so the collection does not contain
exactly the remaining enumerated paths `a.py` and `b.py`. -/
theorem C8_counterexample :
    netC8x.files "X~1" "r1" = Except.ok (Except.ok ["/COMMIT_MSG", "a.py", "b.py"]) ∧
    emittedFilePathsByChange sampleConfig netC8x = some [[]] :=
  ⟨rfl, by decide⟩

/-- Claim C8 (amended): in every emitted report no FileEntry has a path
beginning with the reserved slash prefix; and whenever every diff request
for a change's eligible files arrives without a transport exception, the
change's file collection is exactly the enumerated paths minus the
slash-prefixed ones, in order.  (A transport exception mid-change leaves
only a prefix of the eligible paths in the collection.) -/
theorem C8_spec (cfg : Config) (net : Net) (r : Report)
    (hrun : get_merged_diffs cfg net = Except.ok (some r)) :
    (∀ cd ∈ r.changes, ∀ fe ∈ cd.files, startsWithSlash fe.path = false) ∧
    (∀ (c : ChangeInfo) (filesKeys : List String),
      net.files c.id c.current_revision = Except.ok (Except.ok filesKeys) →
      (∀ p ∈ filesKeys.filter (fun q => !(startsWithSlash q)),
        ∃ resp, net.diff c.id c.current_revision (quote p) = Except.ok resp) →
      ∃ cd, processChange net c = Except.ok cd ∧
        cd.files.map FileEntry.path = filesKeys.filter (fun q => !(startsWithSlash q))) := by
  constructor
  · intro cd hcd fe hfe
    rcases report_changes_sources cfg net r hrun with h0 | ⟨cs, _, hproc⟩
    · rw [h0] at hcd
      simp at hcd
    · obtain ⟨c, _, hc⟩ := processChanges_mem net cs r.changes hproc cd hcd
      exact processChange_no_slash net c cd hc fe hfe
  · intro c filesKeys hfiles hdiff
    obtain ⟨cd, h1, h2, _⟩ := processChange_all_diff_ok net c filesKeys hfiles hdiff
    exact ⟨cd, h1, h2⟩

/-- Claim C8, witness: a run enumerating `/COMMIT_MSG` and `a.py` where all
diff fetches arrive; the report contains no slash-prefixed path and the
change's collection is exactly `a.py`. -/
theorem C8_witness :
    (∀ cd ∈ rC8.changes, ∀ fe ∈ cd.files, startsWithSlash fe.path = false) ∧
    (∀ (c : ChangeInfo) (filesKeys : List String),
      netC8w.files c.id c.current_revision = Except.ok (Except.ok filesKeys) →
      (∀ p ∈ filesKeys.filter (fun q => !(startsWithSlash q)),
        ∃ resp, netC8w.diff c.id c.current_revision (quote p) = Except.ok resp) →
      ∃ cd, processChange netC8w c = Except.ok cd ∧
        cd.files.map FileEntry.path = filesKeys.filter (fun q => !(startsWithSlash q))) :=
  C8_spec sampleConfig netC8w rC8 rfl

/-- Claim C9: with the dry-run flag set the outcome is independent of the
network (no network call can influence it, there are none), and the report
has a zero count, an empty change collection, the dry-run marker set, and
query, repository, status and recency fields reflecting the resolved
configuration. -/
theorem C9_spec (cfg : Config) (net1 net2 : Net) (h : cfg.dry_run = true) :
    get_merged_diffs cfg net1 = get_merged_diffs cfg net2 ∧
    get_merged_diffs cfg net1 = Except.ok (some
      { query := buildQuery cfg (resolvedMergedAfter cfg), count := 0,
        repository := some cfg.repo_name, status := some cfg.status,
        merged_after := some (resolvedMergedAfter cfg), timestamp := some cfg.now_iso,
        changes := [], dry_run := some true }) := by
  have h1 : ∀ net : Net, get_merged_diffs cfg net = Except.ok (some
      { query := buildQuery cfg (resolvedMergedAfter cfg), count := 0,
        repository := some cfg.repo_name, status := some cfg.status,
        merged_after := some (resolvedMergedAfter cfg), timestamp := some cfg.now_iso,
        changes := [], dry_run := some true }) := by
    intro net
    unfold get_merged_diffs
    rw [h]
    simp only [if_true]
  exact ⟨(h1 net1).trans (h1 net2).symm, h1 net1⟩

/-- Claim C9, witness: the dry-run configuration evaluated against a network
where everything fails and a network where everything succeeds. -/
theorem C9_witness :
    get_merged_diffs dryConfig netC9a = get_merged_diffs dryConfig netC9b ∧
    get_merged_diffs dryConfig netC9a = Except.ok (some
      { query := buildQuery dryConfig (resolvedMergedAfter dryConfig), count := 0,
        repository := some dryConfig.repo_name, status := some dryConfig.status,
        merged_after := some (resolvedMergedAfter dryConfig),
        timestamp := some dryConfig.now_iso, changes := [], dry_run := some true }) :=
  C9_spec dryConfig netC9a netC9b rfl

/-- Claim C10: a file-enumeration response that is transport-ok but fails to
parse as JSON is not contained at the change level: the decode exception
escapes `get_merged_diffs` (provided the earlier changes processed without
crashing) and nothing is written to standard output. -/
theorem C10_spec (cfg : Config) (net : Net) (cs : List ChangeInfo) (i : Nat) (msg : String)
    (hdry : cfg.dry_run = false)
    (hsearch : net.search = Except.ok (Except.ok cs))
    (hi : i < cs.length)
    (hjson : net.files (cs.get ⟨i, hi⟩).id (cs.get ⟨i, hi⟩).current_revision =
      Except.ok (Except.error msg))
    (hbefore : ∀ j (hj : j < cs.length), j < i →
      ∃ cd, processChange net (cs.get ⟨j, hj⟩) = Except.ok cd) :
    get_merged_diffs cfg net = Except.error msg ∧ mainOutput cfg net = none := by
  have herr := processChange_files_jsonError net (cs.get ⟨i, hi⟩) msg hjson
  have hp := processChanges_error_at net cs i hi msg herr hbefore
  have hne : cs ≠ [] := List.ne_nil_of_length_pos (Nat.lt_of_le_of_lt (Nat.zero_le i) hi)
  have hg : get_merged_diffs cfg net = Except.error msg := by
    unfold get_merged_diffs
    rw [hdry, hsearch]
    simp only [Bool.false_eq_true, if_false]
    rw [List.isEmpty_eq_false.mpr hne]
    simp only [Bool.false_eq_true, if_false]
    rw [hp]
  refine ⟨hg, ?_⟩
  unfold mainOutput
  rw [hg]

/-- Claim C10, witness: one change whose file-list body fails to parse; the
run aborts with the decode message and emits nothing. -/
theorem C10_witness :
    get_merged_diffs sampleConfig netC10w =
      Except.error "Expecting value: line 1 column 1 (char 0)" ∧
    mainOutput sampleConfig netC10w = none :=
  C10_spec sampleConfig netC10w [sampleChange "X~1" "r1"] 0
    "Expecting value: line 1 column 1 (char 0)" rfl rfl (by decide) rfl
    (fun j hj hj0 => absurd hj0 (Nat.not_lt_zero j))

end MergeSummary
